import Mathlib

/-!
Shallow embedding of the Rasputin bit-perfect audio player.

Sources embedded:
- `src/app/audio_engine.py` — `AudioEngine` (playback controller, bit-perfect
  classifier, format mapper, playback loop cleanup).
- `src/player.py` — standalone `map_subtype_to_alsa_format`.
- `src/visualizer_window.py` — `VisualizerWindow.push_chunk` rolling buffer.

Modelling conventions:
- Python floats (seconds, positions, durations) are modelled as `Rat`; the
  claims under study only use comparison, `max` and division, on which float
  and rational behaviour agree away from NaN/overflow.
- `threading.Event` objects are modelled by indices into a growing list of
  booleans (`flags`): allocating a fresh event appends a `false` cell;
  `set()`/`clear()` write the indexed cell.  Object identity of events is
  index identity.
- NumPy integer samples are `Int`; dtype limits are the exact int16/int32
  maxima used by `np.iinfo(...).max`.
-/

/-- ALSA PCM sample formats used by the two format mappers
(`alsaaudio.PCM_FORMAT_S16_LE` / `PCM_FORMAT_S32_LE`). -/
inductive AlsaFormat where
  | s16le
  | s32le
  deriving DecidableEq, Repr

/-- NumPy element dtypes used by the two format mappers (`np.int16` / `np.int32`). -/
inductive NpDtype where
  | int16
  | int32
  deriving DecidableEq, Repr

/-- `AudioEngine._map_subtype_to_alsa_format` (src/app/audio_engine.py:435-444):
maps a libsndfile subtype string to an (ALSA format, numpy dtype) pair, raising
`ValueError` (modelled as `Except.error` carrying the message) otherwise. -/
def mapSubtypeToAlsaFormatEngine (subtype : String) : Except String (AlsaFormat × NpDtype) :=
  if subtype = "PCM_16" then
    Except.ok (AlsaFormat.s16le, NpDtype.int16)
  else if subtype = "PCM_24" then
    Except.ok (AlsaFormat.s32le, NpDtype.int32)
  else if subtype = "PCM_32" then
    Except.ok (AlsaFormat.s32le, NpDtype.int32)
  else
    Except.error ("Unsupported PCM subtype: " ++ subtype)

/-- `map_subtype_to_alsa_format` (src/player.py:44-58): the standalone player's
variant of the mapper; identical branch structure, different error message. -/
def mapSubtypeToAlsaFormatPlayer (subtype : String) : Except String (AlsaFormat × NpDtype) :=
  if subtype = "PCM_16" then
    Except.ok (AlsaFormat.s16le, NpDtype.int16)
  else if subtype = "PCM_24" then
    Except.ok (AlsaFormat.s32le, NpDtype.int32)
  else if subtype = "PCM_32" then
    Except.ok (AlsaFormat.s32le, NpDtype.int32)
  else
    Except.error ("Unsupported PCM subtype for bit-perfect: " ++ subtype)

/-- `PlaybackState` (src/app/audio_engine.py:151-155). -/
inductive PlaybackState where
  | idle
  | playing
  | paused
  | stopped
  deriving DecidableEq, Repr

/-- The slice of `TrackInfo` (src/app/audio_engine.py:45-59) that playback
control reads: integer id, file path, optional duration in seconds. -/
structure Track where
  id : Nat
  path : String
  duration : Option Rat
  deriving DecidableEq, Repr

/-- The mutable state of `AudioEngine` (src/app/audio_engine.py:168-201)
relevant to playback control.  `threading.Event` objects are indices into
`flags`; a fresh event is a freshly appended cell initialised to `false`. -/
structure EngineState where
  tracks : List Track
  currentTrack : Option Track
  stopEventId : Nat
  pauseEventId : Nat
  flags : List Bool
  pendingSeek : Option Rat
  position : Rat
  duration : Rat
  state : PlaybackState
  bitperfect : Bool
  bitperfectReason : String
  alsaCard : String
  deriving DecidableEq, Repr

/-- `AudioEngine.get_track_by_id` (src/app/audio_engine.py:249-253). -/
def getTrackById (st : EngineState) (trackId : Nat) : Option Track :=
  st.tracks.find? (fun t => t.id = trackId)

/-- Errors raised by the control surface; `play` raises
`ValueError("Track not found")` for an unknown id. -/
inductive EngineError where
  | trackNotFound
  deriving DecidableEq, Repr

/-- `AudioEngine.play` (src/app/audio_engine.py:308-349).  Looks the track up
first and raises before any mutation when it is absent; otherwise sets the
previous playback's stop event, allocates a fresh stop/pause event pair
(appended `false` cells), clears the pending seek, installs the track, enters
`Playing`, resets position and the bit-perfect fields, and records the new
duration.  Returns the post-call state together with the raised error, if any
(on error the state is returned unchanged). -/
def play (st : EngineState) (trackId : Nat) : EngineState × Option EngineError :=
  match getTrackById st trackId with
  | none => (st, some EngineError.trackNotFound)
  | some track =>
    let flags1 := st.flags.set st.stopEventId true
    let newStopId := flags1.length
    let newPauseId := flags1.length + 1
    let flags2 := flags1 ++ [false, false]
    ({ st with
        flags := flags2
        stopEventId := newStopId
        pauseEventId := newPauseId
        pendingSeek := none
        currentTrack := some track
        state := PlaybackState.playing
        duration := track.duration.getD 0
        position := 0
        bitperfect := false
        bitperfectReason := "Opening device" }, none)

/-- `AudioEngine.pause` (src/app/audio_engine.py:351-357): unconditionally sets
the pause event and moves the state to `Paused`. -/
def pause (st : EngineState) : EngineState :=
  { st with
      flags := st.flags.set st.pauseEventId true
      state := PlaybackState.paused }

/-- `AudioEngine.resume` (src/app/audio_engine.py:359-365): unconditionally
clears the pause event and moves the state to `Playing`. -/
def resume (st : EngineState) : EngineState :=
  { st with
      flags := st.flags.set st.pauseEventId false
      state := PlaybackState.playing }

/-- `AudioEngine.stop` (src/app/audio_engine.py:367-378). -/
def stop (st : EngineState) : EngineState :=
  { st with
      flags := (st.flags.set st.stopEventId true).set st.pauseEventId false
      state := PlaybackState.stopped
      bitperfect := false
      bitperfectReason := "Stopped" }

/-- `AudioEngine.seek` (src/app/audio_engine.py:380-384): records
`max 0 seconds` as the pending seek target and as the published position.
No upper clamp is applied here. -/
def seek (st : EngineState) (seconds : Rat) : EngineState :=
  { st with
      pendingSeek := some (max 0 seconds)
      position := max 0 seconds }

/-- `AudioEngine.get_position` (src/app/audio_engine.py:386-388). -/
def getPosition (st : EngineState) : Rat :=
  st.position

/-- `AudioEngine.get_duration` (src/app/audio_engine.py:390-396). -/
def getDuration (st : EngineState) : Rat :=
  if 0 < st.duration then st.duration
  else
    match st.currentTrack with
    | some t =>
      match t.duration with
      | some d => if d ≠ 0 then d else 0
      | none => 0
    | none => 0

/-- Python's `str.startswith`, modelled as a prefix test on the character
sequence (Lean's builtin `String.startsWith` is byte-level and does not reduce
in the kernel; on character lists the two agree). -/
def pyStartsWith (s p : String) : Bool :=
  p.data.isPrefixOf s.data

/-- `AudioEngine._set_bitperfect_state` (src/app/audio_engine.py:399-432):
clears both fields, then publishes `bitperfect = true` exactly when the ALSA
device string is truthy and starts with `"hw:"` and the file subtype is one of
`PCM_16`/`PCM_24`/`PCM_32`; otherwise leaves the flag `false` with the
corresponding reason string. -/
def setBitperfectState (st : EngineState) (fileSubtype : String)
    (alsaDevice : Option String) : EngineState :=
  let cleared := { st with bitperfect := false, bitperfectReason := "" }
  let deviceBad : Bool :=
    match alsaDevice with
    | none => true
    | some d => d.isEmpty || !(pyStartsWith d "hw:")
  if deviceBad then
    { cleared with bitperfectReason := "Using non-hw ALSA device (likely mixed/resampled)" }
  else if !(fileSubtype == "PCM_16" || fileSubtype == "PCM_24" || fileSubtype == "PCM_32") then
    { cleared with bitperfectReason := "Unsupported or non-integer subtype: " ++ fileSubtype }
  else
    { cleared with bitperfect := true, bitperfectReason := "" }

/-- Reasons `AudioEngine._playback_loop` (src/app/audio_engine.py:455-596)
stops executing: a `ValueError` from the format mapper, a `RuntimeError`
raised when stop fires during the open-retry loop, a `RuntimeError` after
exhausting open retries, an observed stop flag, an empty read (end of file),
or a failing `pcm.write`. -/
inductive LoopExit where
  | formatError
  | openAbortedByStop
  | openExhausted
  | stopRequested
  | endOfFile
  | writeFailed
  deriving DecidableEq, Repr

/-- The observations one iteration of the `while` loop in
`AudioEngine._playback_loop` (src/app/audio_engine.py:520-563) makes of its
environment: the values of its private stop and pause events, the number of
frames returned by `f.read`, and whether `pcm.write` succeeds. -/
structure IterInput where
  stopSet : Bool
  pauseSet : Bool
  readLen : Nat
  writeOk : Bool
  deriving DecidableEq, Repr

/-- The `while not stop_event.is_set()` loop of `AudioEngine._playback_loop`
(src/app/audio_engine.py:520-563), driven by the per-iteration observations:
exit on a set stop flag; on a set pause flag sleep and re-poll; exit on an
empty read; on a write failure `break` immediately (the failing block is not
retried); otherwise continue.  `none` means the supplied observation list was
exhausted before the loop exited. -/
def runLoop : List IterInput → Option LoopExit
  | [] => none
  | it :: rest =>
    if it.stopSet then some LoopExit.stopRequested
    else if it.pauseSet then runLoop rest
    else if it.readLen = 0 then some LoopExit.endOfFile
    else if !it.writeOk then some LoopExit.writeFailed
    else runLoop rest

/-- Whether a loop exit reason corresponds to an exception reaching the
`except` block of `AudioEngine._playback_loop` (src/app/audio_engine.py:565-572);
stop, end-of-file and a write failure leave the `try` body normally. -/
def isErrorExit : LoopExit → Bool
  | LoopExit.formatError => true
  | LoopExit.openAbortedByStop => true
  | LoopExit.openExhausted => true
  | _ => false

/-- The `self.current_track and self.current_track.path == path` test of the
cleanup in `AudioEngine._playback_loop` (src/app/audio_engine.py:587). -/
def sessionStillCurrent (st : EngineState) (path : String) : Bool :=
  match st.currentTrack with
  | some t => t.path = path
  | none => false

/-- The mutation performed before `raise` when the open-retry loop exhausts
its attempts (src/app/audio_engine.py:485-489). -/
def openFailedMark (st : EngineState) (e : LoopExit) : EngineState :=
  if e = LoopExit.openExhausted then
    { st with bitperfect := false, bitperfectReason := "Unable to open ALSA device" }
  else st

/-- The `except` block of `AudioEngine._playback_loop`
(src/app/audio_engine.py:565-572): on an exception, force the bit-perfect
flag off and install a generic reason when none is set. -/
def exceptBlock (st : EngineState) (e : LoopExit) : EngineState :=
  if isErrorExit e then
    { st with
        bitperfect := false
        bitperfectReason :=
          if st.bitperfectReason = "" then "Playback error" else st.bitperfectReason }
  else st

/-- The session-field part of the `finally` block of
`AudioEngine._playback_loop` (src/app/audio_engine.py:586-594): when this
loop's track is still the globally current one, move to `Idle` unless this
loop's stop event was set, and clear current track, position and the
bit-perfect fields. -/
def finallyBlock (st : EngineState) (path : String) (stopSet : Bool) : EngineState :=
  if sessionStillCurrent st path then
    { st with
        state := if stopSet then st.state else PlaybackState.idle
        currentTrack := none
        position := 0
        bitperfect := false
        bitperfectReason := "Idle" }
  else st

/-- The tail of `AudioEngine._playback_loop` (src/app/audio_engine.py:565-596)
for a given exit reason: the open-exhausted marking and the `except` block run
first, then the `finally` block closes the device (when one was opened) and
performs the session cleanup.  Inputs: the engine state and the loop's own
stop-event value when the loop winds down, and whether the ALSA device was
open.  Output: the resulting engine state and whether a device handle remains
open afterwards. -/
def playbackLoopFinish (st : EngineState) (path : String) (e : LoopExit)
    (stopSet : Bool) (_deviceOpen : Bool) : EngineState × Bool :=
  let st1 := exceptBlock (openFailedMark st e) e
  (finallyBlock st1 path stopSet, false)

/-- `np.iinfo(dtype).max` for the two dtypes the engine reads with. -/
def npDtypeMax : NpDtype → Int
  | NpDtype.int16 => 32767
  | NpDtype.int32 => 2147483647

/-- The integer-normalisation step of `VisualizerWindow.push_chunk`
(src/visualizer_window.py:152-154): divide by the dtype's maximum value. -/
def normalizeSample (dt : NpDtype) (x : Int) : Rat :=
  (x : Rat) / ((npDtypeMax dt : Int) : Rat)

/-- `arr[:, 0]` on a `(frames, channels)` block
(src/visualizer_window.py:149-150): the first sample of every frame. -/
def firstChannel (block : List (List Int)) : List Int :=
  block.map (fun frame => frame.getD 0 0)

/-- The rolling-buffer update of `VisualizerWindow.push_chunk`
(src/visualizer_window.py:158-172): an empty chunk leaves the buffer alone; a
chunk of at least `fftSize` samples replaces the whole buffer with the chunk's
last `fftSize` samples; a shorter chunk rolls the buffer left by the chunk
length and writes the chunk over the tail. -/
def pushBuffer (fftSize : Nat) (buf : List Rat) (arr : List Rat) : List Rat :=
  if arr.length = 0 then buf
  else if fftSize ≤ arr.length then arr.drop (arr.length - fftSize)
  else buf.drop arr.length ++ arr

/-- `VisualizerWindow.push_chunk` (src/visualizer_window.py:142-172) on an
integer block of shape `(frames, channels)`: take the first channel, normalise
by the dtype maximum, and fold into the rolling buffer. -/
def pushChunk (fftSize : Nat) (buf : List Rat) (block : List (List Int))
    (dt : NpDtype) : List Rat :=
  pushBuffer fftSize buf ((firstChannel block).map (normalizeSample dt))

/-- A concrete engine state used to instantiate several hypotheses below:
one track in the library, a live stop/pause event pair, one second played. -/
def baseState : EngineState where
  tracks := [{ id := 0, path := "a.flac", duration := some 10 }]
  currentTrack := some { id := 0, path := "a.flac", duration := some 10 }
  stopEventId := 0
  pauseEventId := 1
  flags := [false, false]
  pendingSeek := none
  position := 1
  duration := 10
  state := PlaybackState.playing
  bitperfect := true
  bitperfectReason := ""
  alsaCard := "hw:0,0"

/-- A string that `str.startswith("hw:")` accepts is not empty. -/
theorem isEmpty_false_of_pyStartsWith_hw (d : String)
    (h : pyStartsWith d "hw:" = true) : d.isEmpty = false := by
  cases he : d.isEmpty with
  | false => rfl
  | true =>
    rw [String.isEmpty_iff] at he
    subst he
    exact absurd h (by decide)

/-- `openFailedMark` only touches the bit-perfect fields. -/
theorem openFailedMark_currentTrack (st : EngineState) (e : LoopExit) :
    (openFailedMark st e).currentTrack = st.currentTrack := by
  unfold openFailedMark
  split <;> rfl

/-- `exceptBlock` only touches the bit-perfect fields. -/
theorem exceptBlock_currentTrack (st : EngineState) (e : LoopExit) :
    (exceptBlock st e).currentTrack = st.currentTrack := by
  unfold exceptBlock
  split <;> rfl

/-- Claim C1: after the bit-perfect classifier runs with device identifier `d`
and source subtype `s`, the published flag is true iff `d` starts with `"hw:"`
and `s` is one of `PCM_16`/`PCM_24`/`PCM_32`; a non-exclusive device yields
`false` with the device-related reason, and an exclusive device with a subtype
outside that set yields `false` with the format-related reason. -/
theorem c1_bitperfect_classifier (st : EngineState) (d s : String) :
    ((setBitperfectState st s (some d)).bitperfect = true ↔
      (pyStartsWith d "hw:" = true ∧ (s = "PCM_16" ∨ s = "PCM_24" ∨ s = "PCM_32")))
    ∧ (pyStartsWith d "hw:" = false →
        (setBitperfectState st s (some d)).bitperfect = false ∧
        (setBitperfectState st s (some d)).bitperfectReason =
          "Using non-hw ALSA device (likely mixed/resampled)")
    ∧ (pyStartsWith d "hw:" = true →
        ¬(s = "PCM_16" ∨ s = "PCM_24" ∨ s = "PCM_32") →
        (setBitperfectState st s (some d)).bitperfect = false ∧
        (setBitperfectState st s (some d)).bitperfectReason =
          "Unsupported or non-integer subtype: " ++ s) := by
  by_cases hsw : pyStartsWith d "hw:" = true
  · have he := isEmpty_false_of_pyStartsWith_hw d hsw
    by_cases hs : s = "PCM_16" ∨ s = "PCM_24" ∨ s = "PCM_32"
    · refine ⟨?_, ?_, ?_⟩
      · simp only [setBitperfectState, he, hsw, Bool.false_or, Bool.not_true, Bool.or_false,
          if_false]
        rcases hs with h | h | h <;> subst h <;> simp [hsw]
      · intro hfalse
        rw [hsw] at hfalse
        exact absurd hfalse (by simp)
      · intro _ hns
        exact absurd hs hns
    · refine ⟨?_, ?_, ?_⟩
      · have hb : (s == "PCM_16" || s == "PCM_24" || s == "PCM_32") = false := by
          push_neg at hs
          simp [hs.1, hs.2.1, hs.2.2]
        simp [setBitperfectState, he, hsw, hb]
        push_neg at hs
        exact hs
      · intro hfalse
        rw [hsw] at hfalse
        exact absurd hfalse (by simp)
      · intro _ _
        have hb : (s == "PCM_16" || s == "PCM_24" || s == "PCM_32") = false := by
          push_neg at hs
          simp [hs.1, hs.2.1, hs.2.2]
        simp [setBitperfectState, he, hsw, hb]
  · have hsw' : pyStartsWith d "hw:" = false := by
      cases h : pyStartsWith d "hw:" with
      | false => rfl
      | true => exact absurd h hsw
    refine ⟨?_, ?_, ?_⟩
    · simp [setBitperfectState, hsw']
    · intro _
      simp [setBitperfectState, hsw']
    · intro htrue
      exact absurd htrue hsw


/-- Witness for C1: the classifier at concrete inputs — a converting device
with an integer subtype yields the device reason, and an exclusive device with
a float subtype yields the format reason. -/
theorem c1_bitperfect_classifier_witness :
    ((setBitperfectState baseState "PCM_16" (some "plughw:0,0")).bitperfect = false ∧
      (setBitperfectState baseState "PCM_16" (some "plughw:0,0")).bitperfectReason =
        "Using non-hw ALSA device (likely mixed/resampled)")
    ∧ ((setBitperfectState baseState "FLOAT" (some "hw:0,0")).bitperfect = false ∧
      (setBitperfectState baseState "FLOAT" (some "hw:0,0")).bitperfectReason =
        "Unsupported or non-integer subtype: FLOAT") :=
  ⟨(c1_bitperfect_classifier baseState "plughw:0,0" "PCM_16").2.1 (by decide),
   (c1_bitperfect_classifier baseState "hw:0,0" "FLOAT").2.2 (by decide) (by decide)⟩

/-- Claim C2: the engine's format mapper returns a pair exactly for the
supported integer encodings — `PCM_16 ↦ (S16_LE, int16)`, and `PCM_24` and
`PCM_32` both `↦ (S32_LE, int32)` — and raises an unsupported-format error for
every other subtype. -/
theorem c2_format_mapper (s : String) :
    (mapSubtypeToAlsaFormatEngine s = Except.ok (AlsaFormat.s16le, NpDtype.int16) ↔
      s = "PCM_16")
    ∧ (mapSubtypeToAlsaFormatEngine s = Except.ok (AlsaFormat.s32le, NpDtype.int32) ↔
      (s = "PCM_24" ∨ s = "PCM_32"))
    ∧ ((∃ msg, mapSubtypeToAlsaFormatEngine s = Except.error msg) ↔
      (s ≠ "PCM_16" ∧ s ≠ "PCM_24" ∧ s ≠ "PCM_32")) := by
  unfold mapSubtypeToAlsaFormatEngine
  split_ifs with h1 h2 h3 <;> subst_eqs <;> simp_all

/-- Claim C10: the standalone player's format mapper and the engine's format
mapper are observationally equivalent — on every subtype string either both
return the same (device format, element type) pair, or both raise an
unsupported-subtype error. -/
theorem c10_mapper_equivalence (s : String) :
    (∃ r, mapSubtypeToAlsaFormatEngine s = Except.ok r ∧
          mapSubtypeToAlsaFormatPlayer s = Except.ok r)
    ∨ (∃ msgE msgP, mapSubtypeToAlsaFormatEngine s = Except.error msgE ∧
          mapSubtypeToAlsaFormatPlayer s = Except.error msgP) := by
  unfold mapSubtypeToAlsaFormatEngine mapSubtypeToAlsaFormatPlayer
  split_ifs with h1 h2 h3
  · exact Or.inl ⟨_, rfl, rfl⟩
  · exact Or.inl ⟨_, rfl, rfl⟩
  · exact Or.inl ⟨_, rfl, rfl⟩
  · exact Or.inr ⟨_, _, rfl, rfl⟩

/-- Claim C3: `play` on a valid track id sets the previous session's stop flag
and installs a freshly allocated stop/pause pair — distinct from the previous
pair, the new stop flag unset — and leaves the session with the requested
track current, state `Playing`, position 0, pending seek cleared and
bit-perfect reset.  (`play` is a single state transformation that takes no
input from the old loop's exit, modelling its non-blocking return.) -/
theorem play_eq_of_find (st : EngineState) (trackId : Nat) (track : Track)
    (hfind : getTrackById st trackId = some track) :
    play st trackId =
      ({ st with
          flags := (st.flags.set st.stopEventId true) ++ [false, false]
          stopEventId := (st.flags.set st.stopEventId true).length
          pauseEventId := (st.flags.set st.stopEventId true).length + 1
          pendingSeek := none
          currentTrack := some track
          state := PlaybackState.playing
          duration := track.duration.getD 0
          position := 0
          bitperfect := false
          bitperfectReason := "Opening device" }, none) := by
  unfold play
  rw [hfind]

theorem c3_play_fresh_session (st : EngineState) (trackId : Nat) (track : Track)
    (hfind : getTrackById st trackId = some track)
    (hstop : st.stopEventId < st.flags.length)
    (hpause : st.pauseEventId < st.flags.length) :
    (play st trackId).2 = none
    ∧ (play st trackId).1.flags.getD st.stopEventId false = true
    ∧ (play st trackId).1.stopEventId ≠ st.stopEventId
    ∧ (play st trackId).1.pauseEventId ≠ st.pauseEventId
    ∧ (play st trackId).1.stopEventId ≠ (play st trackId).1.pauseEventId
    ∧ (play st trackId).1.flags.getD (play st trackId).1.stopEventId true = false
    ∧ (play st trackId).1.flags.getD (play st trackId).1.pauseEventId true = false
    ∧ (play st trackId).1.currentTrack = some track
    ∧ (play st trackId).1.state = PlaybackState.playing
    ∧ (play st trackId).1.position = 0
    ∧ (play st trackId).1.pendingSeek = none
    ∧ (play st trackId).1.bitperfect = false
    ∧ (play st trackId).1.bitperfectReason = "Opening device" := by
  rw [play_eq_of_find st trackId track hfind]
  have hlen : (st.flags.set st.stopEventId true).length = st.flags.length := by
    simp
  refine ⟨rfl, ?_, ?_, ?_, ?_, ?_, ?_, rfl, rfl, rfl, rfl, rfl, rfl⟩
  · show ((st.flags.set st.stopEventId true) ++ [false, false]).getD st.stopEventId false = true
    rw [List.getD_append _ _ _ _ (by omega)]
    simp [List.getD_eq_getElem?_getD, List.getElem?_set_self,
      List.getElem?_eq_getElem, hstop]
  · show (st.flags.set st.stopEventId true).length ≠ st.stopEventId
    omega
  · show (st.flags.set st.stopEventId true).length + 1 ≠ st.pauseEventId
    omega
  · show (st.flags.set st.stopEventId true).length ≠ (st.flags.set st.stopEventId true).length + 1
    omega
  · show ((st.flags.set st.stopEventId true) ++ [false, false]).getD
      (st.flags.set st.stopEventId true).length true = false
    rw [List.getD_append_right]
    · simp
    · omega
  · show ((st.flags.set st.stopEventId true) ++ [false, false]).getD
      ((st.flags.set st.stopEventId true).length + 1) true = false
    rw [List.getD_append_right]
    · simp
    · omega

/-- Witness for C3: `play` at a concrete one-track engine state. -/
theorem c3_play_fresh_session_witness :
    (play baseState 0).2 = none
    ∧ (play baseState 0).1.flags.getD baseState.stopEventId false = true
    ∧ (play baseState 0).1.stopEventId ≠ baseState.stopEventId
    ∧ (play baseState 0).1.flags.getD (play baseState 0).1.stopEventId true = false
    ∧ (play baseState 0).1.state = PlaybackState.playing :=
  have h := c3_play_fresh_session baseState 0
    { id := 0, path := "a.flac", duration := some 10 }
    (by decide) (by decide) (by decide)
  ⟨h.1, h.2.1, h.2.2.1, h.2.2.2.2.2.1, h.2.2.2.2.2.2.2.2.1⟩

/-- A state with a one-second duration, used to exhibit that `seek` does not
clamp from above. -/
def c4State : EngineState where
  tracks := [{ id := 0, path := "b.flac", duration := some 1 }]
  currentTrack := some { id := 0, path := "b.flac", duration := some 1 }
  stopEventId := 0
  pauseEventId := 1
  flags := [false, false]
  pendingSeek := none
  position := 0
  duration := 1
  state := PlaybackState.playing
  bitperfect := false
  bitperfectReason := ""
  alsaCard := "hw:0,0"

/-- Counterexample to C4: with duration 1, `seek 2` publishes position 2 and
pending seek 2 — above the duration, so the position is not clamped to
`[0, duration]` and `get_position` exceeds the current duration. -/
theorem c4_counterexample :
    getDuration (seek c4State 2) = 1
    ∧ getPosition (seek c4State 2) = 2
    ∧ (seek c4State 2).pendingSeek = some 2
    ∧ ¬ getPosition (seek c4State 2) ≤ getDuration (seek c4State 2) := by
  decide

/-- Claim C4 as amended: `seek s` records the pending-seek target and the
published position, both equal to `max 0 s` — clamped below at 0 only (so
`get_position` is never negative); values above the duration are not clamped
by `seek` itself (the streaming loop clamps the frame target when it consumes
the pending seek). -/
theorem c4_seek_amended (st : EngineState) (s : Rat) :
    (seek st s).pendingSeek = some (max 0 s)
    ∧ getPosition (seek st s) = max 0 s
    ∧ 0 ≤ getPosition (seek st s) := by
  refine ⟨rfl, rfl, ?_⟩
  simp only [seek, getPosition]
  exact le_max_left 0 s

/-- Claim C5: `play` with an id absent from the library fails synchronously
with the track-not-found error and leaves the whole engine state unchanged
(no stop flag signalled, no field mutated). -/
theorem c5_play_unknown_track (st : EngineState) (trackId : Nat)
    (h : getTrackById st trackId = none) :
    play st trackId = (st, some EngineError.trackNotFound) := by
  simp [play, h]

/-- Witness for C5: `play` of id 7 on the concrete one-track state. -/
theorem c5_play_unknown_track_witness :
    play baseState 7 = (baseState, some EngineError.trackNotFound) :=
  c5_play_unknown_track baseState 7 (by decide)

/-- An idle engine state (no current track, both flags clear). -/
def idleState : EngineState where
  tracks := [{ id := 0, path := "a.flac", duration := some 10 }]
  currentTrack := none
  stopEventId := 0
  pauseEventId := 1
  flags := [false, false]
  pendingSeek := none
  position := 0
  duration := 0
  state := PlaybackState.idle
  bitperfect := false
  bitperfectReason := "Idle"
  alsaCard := "hw:0,0"

/-- Counterexample to C6: `pause` invoked from `Idle` performs its transition
anyway — the state moves to `Paused` and the pause flag is set; there is no
state-precondition check.  Likewise `resume` from `Idle` moves to `Playing`. -/
theorem c6_counterexample :
    idleState.state = PlaybackState.idle
    ∧ (pause idleState).state = PlaybackState.paused
    ∧ (pause idleState).state ≠ idleState.state
    ∧ (pause idleState).flags.getD idleState.pauseEventId false = true
    ∧ (resume idleState).state = PlaybackState.playing := by
  decide

/-- Claim C6 as amended: `pause` always sets the pause flag and moves the
state to `Paused`, and `resume` always clears the pause flag and moves the
state to `Playing`, from every state — neither operation checks a
state precondition, so the `Playing`-only/`Paused`-only validity in the claim
is not enforced. -/
theorem c6_pause_resume_amended (st : EngineState) :
    (pause st).state = PlaybackState.paused
    ∧ (pause st).flags = st.flags.set st.pauseEventId true
    ∧ (resume st).state = PlaybackState.playing
    ∧ (resume st).flags = st.flags.set st.pauseEventId false :=
  ⟨rfl, rfl, rfl, rfl⟩

/-- Claim C7: `pause()` then `resume()` leaves the current track and the
position unchanged, ends with state `Playing`, and touches nothing besides the
pause flag and the state field (every other session field, and every flag cell
other than the pause event's, is unchanged). -/
theorem c7_pause_then_resume (st : EngineState) :
    (resume (pause st)).currentTrack = st.currentTrack
    ∧ (resume (pause st)).position = st.position
    ∧ (resume (pause st)).state = PlaybackState.playing
    ∧ (resume (pause st)).tracks = st.tracks
    ∧ (resume (pause st)).stopEventId = st.stopEventId
    ∧ (resume (pause st)).pauseEventId = st.pauseEventId
    ∧ (resume (pause st)).pendingSeek = st.pendingSeek
    ∧ (resume (pause st)).duration = st.duration
    ∧ (resume (pause st)).bitperfect = st.bitperfect
    ∧ (resume (pause st)).bitperfectReason = st.bitperfectReason
    ∧ (resume (pause st)).alsaCard = st.alsaCard
    ∧ ∀ i, i ≠ st.pauseEventId →
        (resume (pause st)).flags.getD i false = st.flags.getD i false := by
  refine ⟨rfl, rfl, rfl, rfl, rfl, rfl, rfl, rfl, rfl, rfl, rfl, ?_⟩
  intro i hi
  show ((st.flags.set st.pauseEventId true).set st.pauseEventId false).getD i false
      = st.flags.getD i false
  simp [List.getD_eq_getElem?_getD, List.getElem?_set_ne (Ne.symm hi)]

/-- Witness for C7: pause-then-resume on the concrete playing state, including
an untouched flag cell. -/
theorem c7_pause_then_resume_witness :
    (resume (pause baseState)).currentTrack = baseState.currentTrack
    ∧ (resume (pause baseState)).position = baseState.position
    ∧ (resume (pause baseState)).state = PlaybackState.playing
    ∧ (resume (pause baseState)).flags.getD 0 false = baseState.flags.getD 0 false :=
  have h := c7_pause_then_resume baseState
  ⟨h.1, h.2.1, h.2.2.1, h.2.2.2.2.2.2.2.2.2.2.2 0 (by decide)⟩

/-- Claim C8: whatever reason the streaming loop exits for, no device handle
remains open afterwards; if this session's own track is still the globally
current one and its stop flag was not set, the state becomes `Idle` and the
current track, position and bit-perfect state are cleared; and a mid-stream
write failure exits the loop immediately (the block is not retried), reaching
this same cleanup. -/
theorem c8_loop_cleanup (st : EngineState) (path : String) (e : LoopExit)
    (stopSet : Bool) (devOpen : Bool)
    (hcur : sessionStillCurrent st path = true) (hstop : stopSet = false) :
    (playbackLoopFinish st path e stopSet devOpen).2 = false
    ∧ (playbackLoopFinish st path e stopSet devOpen).1.state = PlaybackState.idle
    ∧ (playbackLoopFinish st path e stopSet devOpen).1.currentTrack = none
    ∧ (playbackLoopFinish st path e stopSet devOpen).1.position = 0
    ∧ (playbackLoopFinish st path e stopSet devOpen).1.bitperfect = false
    ∧ (playbackLoopFinish st path e stopSet devOpen).1.bitperfectReason = "Idle"
    ∧ (∀ (rest : List IterInput) (k : Nat),
        runLoop ({ stopSet := false, pauseSet := false, readLen := k + 1, writeOk := false }
          :: rest) = some LoopExit.writeFailed) := by
  have hc1 : sessionStillCurrent (exceptBlock (openFailedMark st e) e) path = true := by
    unfold sessionStillCurrent at hcur ⊢
    rw [exceptBlock_currentTrack, openFailedMark_currentTrack]
    exact hcur
  subst hstop
  refine ⟨rfl, ?_, ?_, ?_, ?_, ?_, ?_⟩
  · simp [playbackLoopFinish, finallyBlock, hc1]
  · simp [playbackLoopFinish, finallyBlock, hc1]
  · simp [playbackLoopFinish, finallyBlock, hc1]
  · simp [playbackLoopFinish, finallyBlock, hc1]
  · simp [playbackLoopFinish, finallyBlock, hc1]
  · intro rest k
    simp [runLoop]

/-- Witness for C8: a write failure on a session whose track is still current
and whose stop flag is clear ends with the device closed and an idle, cleared
session; the loop exits immediately on the failing write. -/
theorem c8_loop_cleanup_witness :
    (playbackLoopFinish baseState "a.flac" LoopExit.writeFailed false true).2 = false
    ∧ (playbackLoopFinish baseState "a.flac" LoopExit.writeFailed false true).1.state
        = PlaybackState.idle
    ∧ (playbackLoopFinish baseState "a.flac" LoopExit.writeFailed false true).1.currentTrack
        = none
    ∧ (playbackLoopFinish baseState "a.flac" LoopExit.writeFailed false true).1.position = 0
    ∧ (playbackLoopFinish baseState "a.flac" LoopExit.writeFailed false true).1.bitperfect
        = false
    ∧ runLoop [{ stopSet := false, pauseSet := false, readLen := 4096, writeOk := false }]
        = some LoopExit.writeFailed :=
  have h := c8_loop_cleanup baseState "a.flac" LoopExit.writeFailed false true
    (by decide) rfl
  ⟨h.1, h.2.1, h.2.2.1, h.2.2.2.1, h.2.2.2.2.1, h.2.2.2.2.2.2 [] 4095⟩

/-- Claim C9: `push_chunk` takes the first channel, normalises integer samples
by dividing by the dtype's maximum value, and updates the fixed-length rolling
buffer by replace-tail-and-shift: a chunk of at least `fft_size` samples
leaves the buffer holding exactly the chunk's last `fft_size` samples, a
shorter chunk shifts the buffer left by the chunk length and appends the chunk
at the tail; the buffer length never changes. -/
theorem c9_push_chunk (fftSize : Nat) (buf : List Rat) (block : List (List Int))
    (dt : NpDtype) (hlen : buf.length = fftSize) :
    (pushChunk fftSize buf block dt).length = fftSize
    ∧ (∀ x : Int, normalizeSample dt x = (x : Rat) / ((npDtypeMax dt : Int) : Rat))
    ∧ firstChannel block = block.map (fun frame => frame.getD 0 0)
    ∧ (fftSize ≤ ((firstChannel block).map (normalizeSample dt)).length →
        pushChunk fftSize buf block dt =
          ((firstChannel block).map (normalizeSample dt)).drop
            (((firstChannel block).map (normalizeSample dt)).length - fftSize))
    ∧ (((firstChannel block).map (normalizeSample dt)).length < fftSize →
        pushChunk fftSize buf block dt =
          buf.drop ((firstChannel block).map (normalizeSample dt)).length
            ++ (firstChannel block).map (normalizeSample dt)) := by
  set arr := (firstChannel block).map (normalizeSample dt) with harr
  refine ⟨?_, fun _ => rfl, rfl, ?_, ?_⟩
  · show (pushBuffer fftSize buf arr).length = fftSize
    unfold pushBuffer
    by_cases h0 : arr.length = 0
    · rw [if_pos h0]
      exact hlen
    · rw [if_neg h0]
      by_cases hge : fftSize ≤ arr.length
      · rw [if_pos hge]
        simp only [List.length_drop]
        omega
      · rw [if_neg hge]
        simp only [List.length_append, List.length_drop]
        omega
  · intro hge
    show pushBuffer fftSize buf arr = arr.drop (arr.length - fftSize)
    unfold pushBuffer
    by_cases h0 : arr.length = 0
    · rw [if_pos h0]
      have hb : buf = [] := List.eq_nil_of_length_eq_zero (by omega)
      have ha : arr.drop (arr.length - fftSize) = [] := by
        apply List.eq_nil_of_length_eq_zero
        simp only [List.length_drop]
        omega
      rw [hb, ha]
    · rw [if_neg h0, if_pos hge]
  · intro hlt
    show pushBuffer fftSize buf arr = buf.drop arr.length ++ arr
    unfold pushBuffer
    by_cases h0 : arr.length = 0
    · rw [if_pos h0, h0]
      simp [List.length_eq_zero.mp h0]
    · rw [if_neg h0, if_neg (by omega)]

/-- Witness for C9: a two-frame stereo int16 chunk pushed into a length-4
buffer shifts the buffer by two and appends the normalised first channel. -/
theorem c9_push_chunk_witness :
    (pushChunk 4 [1, 1, 1, 1] [[16384, 0], [-16384, 0]] NpDtype.int16).length = 4
    ∧ pushChunk 4 [1, 1, 1, 1] [[16384, 0], [-16384, 0]] NpDtype.int16 =
        [(1 : Rat), 1, 1, 1].drop
            ((firstChannel [[16384, 0], [-16384, 0]]).map (normalizeSample NpDtype.int16)).length
          ++ (firstChannel [[16384, 0], [-16384, 0]]).map (normalizeSample NpDtype.int16) :=
  have h := c9_push_chunk 4 [1, 1, 1, 1] [[16384, 0], [-16384, 0]] NpDtype.int16 rfl
  ⟨h.1, h.2.2.2.2 (by decide)⟩
